import Mathlib

/-!
Shallow embedding of the go-pgrouter read-your-writes routing layer
(package dbresolver) and proofs about its specification.

The Go sources embedded here:
  - lsn.go               : the LSN value type, ParseLSN, String, Compare, IsZero
  - querytype.go         : QueryType and DefaultQueryTypeChecker.Check
  - causalconsistency.go : CausalRouter.RouteQuery, shouldUseReplica,
                           UpdateLSNAfterWrite, GetLSNFromCookie, LSNContext
  - db.go                : the DB facade (ExecContext, QueryContext, ReadWrite,
                           ReadOnly, ReadWithLSN, BeginTx)
  - tx.go                : the transaction wrapper (markWriteOperation,
                           trackLSNAfterWrite, Commit, Rollback)
  - middleware.go        : HTTPMiddleware.Middleware and SetLSNCookie

Backends (values of Go type *sql.DB) are modelled as natural numbers.
Network effects (LSN queries against a backend, execution errors) are
modelled as oracle functions carried in environment records.  Machine
integers (uint32 halves of an LSN) are modelled as Nat with the 2^32
bound enforced exactly where the Go code enforces it (strconv.ParseUint
with bitSize 32).
-/

/-! ## Character helpers -/

/-- Whitespace class of the RE2 escape used by the classifier regex:
the Go regexp \s matches exactly tab, newline, form feed, carriage
return and space. -/
def isSpaceRE2 (c : Char) : Bool :=
  c = '\t' || c = '\n' || c = '\x0c' || c = '\x0d' || c = ' '

/-- Word-character class of the Go regexp word boundary \b:
ASCII digits, upper and lower case letters, and underscore. -/
def isWordChar (c : Char) : Bool :=
  (48 ≤ c.toNat && c.toNat ≤ 57) || (65 ≤ c.toNat && c.toNat ≤ 90) ||
    (97 ≤ c.toNat && c.toNat ≤ 122) || c.toNat == 95

/-- The 22 characters accepted as hexadecimal digits by strconv.ParseUint
with base 16 (lsn.go uses ParseUint(part, 16, 32)). -/
def hexChars : List Char :=
  ['A', 'B', 'C', 'D', 'E', 'F', 'a', 'b', 'c', 'd', 'e', 'f',
   '9', '8', '7', '6', '5', '4', '3', '2', '1', '0']

/-- Character is a hexadecimal digit in the sense of strconv.ParseUint base 16. -/
def isHexDigit (c : Char) : Bool := hexChars.contains c

/-- Numeric value of a hexadecimal digit, as decoded by strconv.ParseUint
base 16.  Characters outside the hex alphabet are mapped to 0; they are
ruled out before this function is applied. -/
def hexVal : Char → Nat
  | '0' => 0 | '1' => 1 | '2' => 2 | '3' => 3 | '4' => 4
  | '5' => 5 | '6' => 6 | '7' => 7 | '8' => 8 | '9' => 9
  | 'a' => 10 | 'b' => 11 | 'c' => 12 | 'd' => 13 | 'e' => 14 | 'f' => 15
  | 'A' => 10 | 'B' => 11 | 'C' => 12 | 'D' => 13 | 'E' => 14 | 'F' => 15
  | _ => 0

/-- Uppercase hexadecimal digit character for a value below 16, as printed
by the Go format verb %X.  Values at or above 16 do not occur. -/
def hexDigitChar : Nat → Char
  | 0 => '0' | 1 => '1' | 2 => '2' | 3 => '3' | 4 => '4'
  | 5 => '5' | 6 => '6' | 7 => '7' | 8 => '8' | 9 => '9'
  | 10 => 'A' | 11 => 'B' | 12 => 'C' | 13 => 'D' | 14 => 'E' | 15 => 'F'
  | _ => '0'

/-! ## The LSN value type (lsn.go) -/

/-- LSN represents a PostgreSQL Log Sequence Number in the format X/Y.
Upper and Lower are uint32 in Go; here Nat carrying the invariant
that parsed values are below 2^32. -/
structure LSN where
  Upper : Nat
  Lower : Nat
deriving DecidableEq

/-- Compare of lsn.go: -1, 0 or 1 by lexicographic comparison of the
Upper then Lower halves. -/
def LSN.Compare (lsn other : LSN) : Int :=
  if lsn.Upper < other.Upper then -1
  else if lsn.Upper > other.Upper then 1
  else if lsn.Lower < other.Lower then -1
  else if lsn.Lower > other.Lower then 1
  else 0

/-- LessThan of lsn.go. -/
def LSN.LessThan (lsn other : LSN) : Bool := lsn.Compare other < 0

/-- GreaterThanOrEqual of lsn.go. -/
def LSN.GreaterThanOrEqual (lsn other : LSN) : Bool := lsn.Compare other ≥ 0

/-- IsZero of lsn.go: true iff the LSN is 0/0. -/
def LSN.IsZero (lsn : LSN) : Bool := lsn.Upper == 0 && lsn.Lower == 0

/-! ## Parsing and serialization (lsn.go) -/

/-- Split a character list at every solidus, mirroring Go strings.Split
with separator "/" (the separator is a single ASCII byte, so byte-level
and character-level splitting agree on any valid UTF-8 input). -/
def splitSlash : List Char → List (List Char)
  | [] => [[]]
  | c :: rest =>
    if c = '/' then [] :: splitSlash rest
    else
      match splitSlash rest with
      | [] => [[c]]
      | p :: ps => (c :: p) :: ps

/-- Accumulate hexadecimal digits big-endian, as ParseUint does. -/
def fromHex (l : List Char) : Nat :=
  l.foldl (fun a c => 16 * a + hexVal c) 0

/-- Model of strconv.ParseUint(s, 16, 32): fails on empty input, on any
character outside the hexadecimal alphabet, and on values that do not
fit in 32 bits; otherwise returns the decoded value. -/
def parseHex32 (l : List Char) : Option Nat :=
  if l = [] then none
  else if l.all isHexDigit then
    if fromHex l < 4294967296 then some (fromHex l) else none
  else none

/-- ParseLSN of lsn.go on the character list of the input string:
reject empty input, split on the solidus, require exactly two parts,
and decode each part as a 32-bit hexadecimal number. -/
def ParseLSNChars (l : List Char) : Option LSN :=
  if l = [] then none
  else
    match splitSlash l with
    | [u, v] =>
      match parseHex32 u, parseHex32 v with
      | some up, some lo => some ⟨up, lo⟩
      | _, _ => none
    | _ => none

/-- ParseLSN of lsn.go. -/
def ParseLSN (s : String) : Option LSN := ParseLSNChars s.data

/-- Fuel-indexed big-endian uppercase hexadecimal digit expansion.
The fuel only bounds the recursion; it is always chosen large enough. -/
def hexRepAux : Nat → Nat → List Char
  | 0, _ => []
  | fuel + 1, n =>
    if n < 16 then [hexDigitChar n]
    else hexRepAux fuel (n / 16) ++ [hexDigitChar (n % 16)]

/-- Uppercase hexadecimal representation of a natural number with no
leading zeros, as printed by the Go format verb %X. -/
def hexRep (n : Nat) : List Char := hexRepAux (n + 1) n

/-- Character list of the String method of lsn.go: %X/%X. -/
def LSN.toStringChars (lsn : LSN) : List Char :=
  hexRep lsn.Upper ++ '/' :: hexRep lsn.Lower

/-- String method of lsn.go (fmt.Sprintf with %X/%X). -/
def LSN.toString (lsn : LSN) : String := String.mk lsn.toStringChars

/-- Uppercase an ASCII character; used to state the case normalization
in the round-trip claim.  Agrees with Char.toUpper on ASCII. -/
def upperChar (c : Char) : Char :=
  if 97 ≤ c.toNat && c.toNat ≤ 122 then Char.ofNat (c.toNat - 32) else c

/-- Uppercase every character of a string. -/
def upperStr (s : String) : String := String.mk (s.data.map upperChar)

/-- A digit segment carries no leading zero: it is the single digit 0 or
does not start with the digit 0.  This is the canonical-form condition
under which %X round-trips. -/
def noLeadZero (l : List Char) : Prop := l = ['0'] ∨ l.head? ≠ some '0'

instance noLeadZeroDecidable (l : List Char) : Decidable (noLeadZero l) := by
  unfold noLeadZero
  infer_instance

/-! ## Query-kind classifier (querytype.go) -/

/-- QueryType of querytype.go: Unknown, Read, Write
(Go constants QueryTypeUnknown, QueryTypeRead, QueryTypeWrite). -/
inductive QueryType where
  | Unknown
  | Read
  | Write
deriving DecidableEq

/-- Match of one input character against one literal pattern character
under the RE2 (?i) flag, which applies Unicode simple case folding.
For the ASCII letters the classifier pattern is made of, the simple
fold orbit of a letter is the letter together with its other ASCII
case, extended by U+017F (latin small letter long s), which folds with
s, and U+212A (the Kelvin sign), which folds with k: those two are the
only characters outside ASCII whose simple-fold orbit reaches an ASCII
letter.  On every other character the orbit test reduces to ASCII
case-insensitive equality. -/
def foldMatchCI (c p : Char) : Bool :=
  upperChar c == upperChar p ||
    (upperChar p == 'S' && c == '\u017F') ||
    (upperChar p == 'K' && c == '\u212A')

/-- Case-insensitive match of a pattern word against the beginning of the
input, followed by a Go regexp word boundary.  This is the semantics of
the regex fragment PATTERN\b under the (?i) flag, for patterns made of
word characters: every pattern character must match under simple case
folding (foldMatchCI), and the character following the match (if any)
must not be a word character (the Go \b is an ASCII word boundary). -/
def ciPrefixWordBoundary : List Char → List Char → Bool
  | [], rest =>
    match rest with
    | [] => true
    | c :: _ => !(isWordChar c)
  | p :: ps, rest =>
    match rest with
    | [] => false
    | c :: cs => foldMatchCI c p && ciPrefixWordBoundary ps cs

/-- Search for a case-insensitive occurrence of a word with word
boundaries on both sides, the semantics of the regex fragment \bWORD\b
under (?i).  The first argument tracks the character preceding the
current position (none at the start of the input). -/
def containsWordCI (w : List Char) : Option Char → List Char → Bool
  | prev, s =>
    let boundaryBefore :=
      match prev with
      | none => true
      | some p => !(isWordChar p)
    (boundaryBefore && ciPrefixWordBoundary w s) ||
      match s with
      | [] => false
      | c :: cs => containsWordCI w (some c) cs

/-- The six mutation verbs of the classifier regex alternation. -/
def writeVerbs : List (List Char) :=
  [['I', 'N', 'S', 'E', 'R', 'T'],
   ['U', 'P', 'D', 'A', 'T', 'E'],
   ['D', 'E', 'L', 'E', 'T', 'E'],
   ['M', 'E', 'R', 'G', 'E'],
   ['T', 'R', 'U', 'N', 'C', 'A', 'T', 'E'],
   ['R', 'E', 'P', 'L', 'A', 'C', 'E']]

/-- The word RETURNING searched for anywhere in the query. -/
def returningWord : List Char := ['R', 'E', 'T', 'U', 'R', 'N', 'I', 'N', 'G']

/-- MatchString of the compiled classifier pattern
(?i)^\s*(INSERT|UPDATE|DELETE|MERGE|TRUNCATE|REPLACE)\b|\bRETURNING\b
of querytype.go.  The anchored alternative matches iff after the maximal
leading run of \s characters one of the verbs appears under RE2 simple
case folding (foldMatchCI), followed by a word boundary; the second
alternative matches iff RETURNING occurs anywhere with word boundaries
on both sides (its letters have purely ASCII fold orbits, so folding is
plain case-insensitivity there). -/
def writeRegexMatch (q : List Char) : Bool :=
  (writeVerbs.any fun v => ciPrefixWordBoundary v (q.dropWhile isSpaceRE2)) ||
    containsWordCI returningWord none q

/-- Check method of DefaultQueryTypeChecker (querytype.go): Write when
the regex matches, Unknown otherwise. -/
def checkChars (q : List Char) : QueryType :=
  if writeRegexMatch q then QueryType.Write else QueryType.Unknown

/-- Check method of DefaultQueryTypeChecker on strings. -/
def DefaultQueryTypeChecker.Check (q : String) : QueryType := checkChars q.data

/-- First token of a statement as the claim words it: skip leading
whitespace, then take the maximal run of word characters. -/
def firstWordToken (q : List Char) : List Char :=
  (q.dropWhile isSpaceRE2).takeWhile isWordChar

/-- Classifier contract exactly as the specification words it: Write iff
the first non-whitespace token, case-insensitively, is one of the
mutation verbs, or the statement contains the bare word RETURNING on a
word boundary; otherwise Unknown. -/
def checkSpecChars (q : List Char) : QueryType :=
  if (writeVerbs.any fun v => (firstWordToken q).map upperChar == v) ||
      containsWordCI returningWord none q
  then QueryType.Write else QueryType.Unknown

/-- Specification-side classifier on strings. -/
def checkSpec (q : String) : QueryType := checkSpecChars q.data

/-! ## Causal consistency configuration and token (causalconsistency.go) -/

/-- CausalConsistencyLevel of causalconsistency.go
(iota: NoneCausalConsistency = 0, ReadYourWrites = 1, StrongConsistency = 2). -/
inductive CausalConsistencyLevel where
  | NoneCausalConsistency
  | ReadYourWrites
  | StrongConsistency
deriving DecidableEq

/-- CausalConsistencyConfig restricted to the fields the routing logic
reads.  RequireCookie, CookieName, CookieMaxAge and Timeout do not
influence any routing decision modelled here. -/
structure CausalConsistencyConfig where
  Enabled : Bool
  Level : CausalConsistencyLevel
  FallbackToMaster : Bool
deriving DecidableEq

/-- LSNContext of causalconsistency.go.  The Go zero value has a zero
RequiredLSN, level NoneCausalConsistency and both booleans false. -/
structure LSNContext where
  RequiredLSN : LSN
  Level : CausalConsistencyLevel
  ForceMaster : Bool
  HasWriteOperation : Bool
deriving DecidableEq

/-- The Go zero value of LSNContext, written by the middleware as
a literal with no fields set. -/
def LSNContext.zero : LSNContext :=
  { RequiredLSN := ⟨0, 0⟩,
    Level := CausalConsistencyLevel.NoneCausalConsistency,
    ForceMaster := false,
    HasWriteOperation := false }

/-! ## Routing environment

Backends are identified by natural numbers.  The load balancer and the
per-backend replay-LSN query are oracles: resolve models
LoadBalancer().Resolve on a list of backends, and lastReplayLSN models
PGLSNChecker.GetLastReplayLSN on the given backend, with none standing
for any query error (timeout, network failure, cancellation). -/

structure RouteEnv where
  primaries : List Nat
  replicas : List Nat
  resolve : List Nat → Nat
  lastReplayLSN : Nat → Option LSN

/-- Routing failure cases of CausalRouter.RouteQuery. -/
inductive RouteError where
  | notEnabled
  | noPrimary
  | noReplicaCaughtUp
deriving DecidableEq

/-- Result of a routing decision: a backend handle or an error. -/
inductive RouteResult where
  | ok (db : Nat)
  | err (e : RouteError)
deriving DecidableEq

/-- shouldUseReplica of causalconsistency.go: with no replicas report
false; with a zero required LSN pick any replica; otherwise pick the
load-balancer replica and use it iff its replay LSN is not below the
required LSN, treating a failed replay-LSN query like a lagging replica.
The Go function also returns an error value that is nil on every path;
it is omitted. -/
def shouldUseReplica (env : RouteEnv) (requiredLSN : LSN) : Bool × Option Nat :=
  if env.replicas = [] then (false, none)
  else if requiredLSN.IsZero then (true, some (env.resolve env.replicas))
  else
    let selected := env.resolve env.replicas
    match env.lastReplayLSN selected with
    | some replicaLSN =>
      if !(replicaLSN.LessThan requiredLSN) then (true, some selected)
      else (false, none)
    | none => (false, none)

/-- Simple read routing shared by the ReadYourWrites fallthrough and the
NoneCausalConsistency branch of RouteQuery: any replica when one exists,
else a primary. -/
def simpleReadRoute (env : RouteEnv) : RouteResult :=
  if env.replicas ≠ [] then RouteResult.ok (env.resolve env.replicas)
  else RouteResult.ok (env.resolve env.primaries)

/-- RouteQuery of CausalRouter (causalconsistency.go).  In source order:
fail when not enabled; fail when no primaries are configured; primary
when the token forces master; primary for writes; then switch on the
configured level.  Under ReadYourWrites with a token carrying a non-zero
required LSN, consult shouldUseReplica and fall back to a primary or
fail according to FallbackToMaster; with no such token fall through to
the simple routing of the NoneCausalConsistency branch.  The branch
returning the error of shouldUseReplica is dead (that error is always
nil) and the trailing default fallback after the switch is unreachable
for enum-valued levels; both are omitted.  In the arm where
shouldUseReplica reports true it always supplies a backend; the
unreachable none sub-case mirrors the nil handle the Go code would
return. -/
def routeQuery (env : RouteEnv) (config : CausalConsistencyConfig)
    (lsnCtx : Option LSNContext) (queryType : QueryType) : RouteResult :=
  if !config.Enabled then RouteResult.err RouteError.notEnabled
  else if env.primaries = [] then RouteResult.err RouteError.noPrimary
  else if (match lsnCtx with
           | some t => t.ForceMaster
           | none => false) then
    RouteResult.ok (env.resolve env.primaries)
  else if queryType = QueryType.Write then
    RouteResult.ok (env.resolve env.primaries)
  else
    match config.Level with
    | CausalConsistencyLevel.ReadYourWrites =>
      match lsnCtx with
      | some t =>
        if !t.RequiredLSN.IsZero then
          match shouldUseReplica env t.RequiredLSN with
          | (true, some db) => RouteResult.ok db
          | (true, none) => RouteResult.ok 0
          | (false, _) =>
            if config.FallbackToMaster then
              RouteResult.ok (env.resolve env.primaries)
            else RouteResult.err RouteError.noReplicaCaughtUp
        else simpleReadRoute env
      | none => simpleReadRoute env
    | CausalConsistencyLevel.NoneCausalConsistency => simpleReadRoute env
    | CausalConsistencyLevel.StrongConsistency =>
      RouteResult.ok (env.resolve env.primaries)

/-! ## Post-write LSN capture (causalconsistency.go) -/

/-- Oracle for PGLSNChecker.GetCurrentWALLSN on a given backend; none
stands for a query error. -/
structure UpdateEnv where
  currentWAL : Nat → Option LSN

/-- Return value of UpdateLSNAfterWrite: the captured LSN on success,
or an error. -/
inductive LSNCaptureResult where
  | ok (lsn : LSN)
  | err
deriving DecidableEq

/-- Observable outcome of UpdateLSNAfterWrite: the returned value,
the token the caller can observe on its own context afterwards, and
the internal lastMasterLSN update (some when the router cache was
written). -/
structure UpdateOutcome where
  ret : LSNCaptureResult
  callerCtx : Option LSNContext
  newLastMasterLSN : Option LSN
deriving DecidableEq

/-- UpdateLSNAfterWrite of CausalRouter (causalconsistency.go).  When
disabled or given a nil backend it returns the zero LSN with no error
and touches nothing.  Otherwise it queries the current WAL LSN of the
given backend; on failure it returns an error and touches nothing.  On
success it stores the LSN in the router cache and writes it into the
LSNContext: the Go code mutates the pointer obtained from the caller
context when one is attached, so the caller observes the new
RequiredLSN; when none is attached it allocates a fresh LSNContext and
rebinds only its local ctx variable, so the caller context is unchanged
and the captured LSN escapes only through the return value. -/
def updateLSNAfterWrite (config : CausalConsistencyConfig) (env : UpdateEnv)
    (db : Option Nat) (callerCtx : Option LSNContext) : UpdateOutcome :=
  if !config.Enabled || db = none then
    { ret := LSNCaptureResult.ok ⟨0, 0⟩, callerCtx := callerCtx, newLastMasterLSN := none }
  else
    match env.currentWAL (db.getD 0) with
    | none =>
      { ret := LSNCaptureResult.err, callerCtx := callerCtx, newLastMasterLSN := none }
    | some masterLSN =>
      { ret := LSNCaptureResult.ok masterLSN,
        callerCtx := callerCtx.map fun t => { t with RequiredLSN := masterLSN },
        newLastMasterLSN := some masterLSN }

/-! ## The DB facade (db.go) -/

/-- Environment of a facade call: the routing environment and
configuration, whether a query router is installed
(db.queryRouter ≠ nil), and per-backend execution outcomes.  connErr
models isDBConnectionError applied to the error of running the user
statement on the given backend; execErr models whether ExecContext on
the given backend returns any error. -/
structure FacadeEnv where
  route : RouteEnv
  config : CausalConsistencyConfig
  hasRouter : Bool
  connErr : Nat → Bool
  execErr : Nat → Bool

/-- ReadWrite of db.go: the load-balancer choice among the primaries. -/
def DBReadWrite (f : FacadeEnv) : Nat := f.route.resolve f.route.primaries

/-- ReadOnly of db.go: a replica when one exists, else a primary. -/
def DBReadOnly (f : FacadeEnv) : Nat :=
  if f.route.replicas = [] then f.route.resolve f.route.primaries
  else f.route.resolve f.route.replicas

/-- ReadWithLSN of db.go: route through the query router, falling back
to the standard read routing when the router is absent or fails. -/
def DBReadWithLSN (f : FacadeEnv) (lsnCtx : Option LSNContext) : Nat :=
  if !f.hasRouter then DBReadOnly f
  else
    match routeQuery f.route f.config lsnCtx QueryType.Read with
    | RouteResult.ok db => db
    | RouteResult.err _ => DBReadOnly f

/-- The backend a query-family read would be sent to first
(the read branch of QueryContext in db.go). -/
def queryReadTarget (f : FacadeEnv) (lsnCtx : Option LSNContext) : Nat :=
  if f.hasRouter then DBReadWithLSN f lsnCtx else DBReadOnly f

/-- QueryContext of db.go, as the ordered list of backends the user
statement is executed on.  Writes go to ReadWrite and are never
re-executed.  Reads go to the router-selected backend; when that
execution fails with a connection-level error the statement is run once
more on ReadWrite. -/
def queryContextDBs (f : FacadeEnv) (lsnCtx : Option LSNContext) (q : String) :
    List Nat :=
  let writeFlag := DefaultQueryTypeChecker.Check q = QueryType.Write
  let curDB := if writeFlag then DBReadWrite f else queryReadTarget f lsnCtx
  if f.connErr curDB ∧ ¬writeFlag then [curDB, DBReadWrite f] else [curDB]

/-- Observable outcome of ExecContext of db.go. -/
structure ExecTrace where
  usedDB : Nat
  success : Bool
  lsnCaptureDBs : List Nat
deriving DecidableEq

/-- ExecContext of db.go (lines 130 to 135): run the statement on
ReadWrite and return its result.  No call to
queryRouter.UpdateLSNAfterWrite occurs anywhere on this path, so the
list of post-write captures is empty even for a successful write. -/
def execContextModel (f : FacadeEnv) (_q : String) : ExecTrace :=
  let usedDB := DBReadWrite f
  { usedDB := usedDB, success := !f.execErr usedDB, lsnCaptureDBs := [] }

/-! ## Transactions (tx.go and BeginTx of db.go) -/

/-- Observable state of the tx wrapper: the pinned source backend, the
writesOccurred flag, and whether a query router is installed on the
transaction.  BeginTx of db.go (lines 104 to 117) builds the literal
with sourceDB, tx and queryTypeChecker only, so queryRouter is nil. -/
structure TxModel where
  sourceDB : Option Nat
  hasRouter : Bool
  writesOccurred : Bool
deriving DecidableEq

/-- BeginTx of db.go: pin to the ReadWrite backend; the queryRouter
field of the tx literal is never set. -/
def beginTx (f : FacadeEnv) : TxModel :=
  { sourceDB := some (DBReadWrite f), hasRouter := false, writesOccurred := false }

/-- markWriteOperation of tx.go: flip writesOccurred when the operation
succeeded. -/
def txMarkWriteOperation (t : TxModel) (success : Bool) : TxModel :=
  if success then { t with writesOccurred := true } else t

/-- ExecContext of tx.go: run the statement, then mark a write operation
on success (for every statement, with no classifier consultation). -/
def txExecContext (t : TxModel) (success : Bool) : TxModel :=
  txMarkWriteOperation t success

/-- QueryContext of tx.go: run the statement and mark a write operation
only when the classifier deems the statement a write and it succeeded. -/
def txQueryContext (t : TxModel) (q : String) (success : Bool) : TxModel :=
  if DefaultQueryTypeChecker.Check q = QueryType.Write then
    txMarkWriteOperation t success
  else t

/-- trackLSNAfterWrite of tx.go: invoke UpdateLSNAfterWrite on the
pinned source backend when the operation succeeded, a query router is
present and the source backend is set; the result is the list of
backends the capture was invoked on. -/
def txTrackLSNAfterWrite (t : TxModel) (errIsNil : Bool) : List Nat :=
  if errIsNil ∧ t.hasRouter ∧ t.sourceDB ≠ none then [t.sourceDB.getD 0] else []

/-- Commit of tx.go: after a successful commit with writes recorded,
run trackLSNAfterWrite; the result is the list of backends the
post-write capture was invoked on. -/
def txCommitCaptures (t : TxModel) (commitOk : Bool) : List Nat :=
  if commitOk ∧ t.writesOccurred then txTrackLSNAfterWrite t true else []

/-- Rollback of tx.go simply rolls back the underlying transaction and
never invokes the post-write capture. -/
def txRollbackCaptures (_t : TxModel) : List Nat := []

/-! ## HTTP middleware (middleware.go) -/

/-- Inbound request restricted to the one observable the middleware
reads: the value of the LSN cookie, none when the cookie is absent. -/
structure HTTPRequest where
  lsnCookie : Option String
deriving DecidableEq

/-- GetLSNFromCookie of causalconsistency.go: the parsed LSN and true
when the cookie is present, non-empty and parses; the zero LSN and
false otherwise. -/
def GetLSNFromCookie (r : HTTPRequest) : LSN × Bool :=
  match r.lsnCookie with
  | some v =>
    if v ≠ "" then
      match ParseLSN v with
      | some lsn => (lsn, true)
      | none => (⟨0, 0⟩, false)
    else (⟨0, 0⟩, false)
  | none => (⟨0, 0⟩, false)

/-- The LSNContext attached to the request context by
HTTPMiddleware.Middleware (middleware.go lines 88 to 111): a fresh zero
LSNContext is always allocated and attached; only when the cookie
parses is its RequiredLSN filled in. -/
def middlewareAttachedCtx (r : HTTPRequest) : Option LSNContext :=
  let lsnRead := GetLSNFromCookie r
  some (if lsnRead.2 then { LSNContext.zero with RequiredLSN := lsnRead.1 }
        else LSNContext.zero)

/-- Response cookie model with the attributes SetLSNCookie sets. -/
structure HTTPCookie where
  name : String
  value : String
  maxAgeSeconds : Int
  httpOnly : Bool
  secure : Bool
  path : String
  sameSiteLax : Bool
deriving DecidableEq

/-- SetLSNCookie of middleware.go (lines 113 to 135) acting on the list
of Set-Cookie headers of the response: return immediately for a zero
LSN; otherwise default the cookie name and max age and append the LSN
cookie.  Durations are modelled in seconds (5 minutes = 300). -/
def SetLSNCookie (resp : List HTTPCookie) (lsn : LSN) (cookieName : String)
    (maxAgeSeconds : Int) (secure : Bool) : List HTTPCookie :=
  if lsn.IsZero then resp
  else
    let name := if cookieName = "" then "pg_min_lsn" else cookieName
    let maxAge := if maxAgeSeconds ≤ 0 then 300 else maxAgeSeconds
    resp ++ [{ name := name, value := lsn.toString, maxAgeSeconds := maxAge,
               httpOnly := true, secure := secure, path := "/", sameSiteLax := true }]

/-! ## Shared concrete environments for witnesses -/

/-- A small concrete routing environment: one primary backend 0, one
replica backend 1, a head-choosing load balancer, and a replay-LSN
oracle that reports 0/3000040 on every backend. -/
def sampleRouteEnv : RouteEnv :=
  { primaries := [0], replicas := [1],
    resolve := fun l => l.headD 0,
    lastReplayLSN := fun _ => some ⟨0, 0x3000040⟩ }

/-- A concrete facade environment over sampleRouteEnv with the causal
router enabled at ReadYourWrites and no execution errors. -/
def sampleFacadeEnv : FacadeEnv :=
  { route := sampleRouteEnv,
    config := { Enabled := true,
                Level := CausalConsistencyLevel.ReadYourWrites,
                FallbackToMaster := true },
    hasRouter := true,
    connErr := fun _ => false,
    execErr := fun _ => false }

/-- Variant of sampleFacadeEnv whose backends all fail with a
connection-level error on the first execution. -/
def sampleFacadeEnvConnErr : FacadeEnv :=
  { sampleFacadeEnv with connErr := fun _ => true }

/-! ## Helper lemmas -/

/-- Bool-valued equality agrees with the propositional comparison. -/
theorem bool_eq_of_iff {a b : Bool} (h : a = true ↔ b = true) : a = b := by
  cases a <;> cases b <;> simp_all

/-- Converting a natural number below the surrogate range to a character
and back is the identity. -/
theorem toNat_charOfNat {n : Nat} (h : n < 55296) : (Char.ofNat n).toNat = n := by
  have hv : n.isValidChar := Or.inl h
  simp only [Char.ofNat, hv, dite_true, Char.ofNatAux, Char.toNat, UInt32.ofNat']
  simp [BitVec.toNat_ofNatLt, UInt32.toNat]

/-- Uppercasing preserves the word-character class. -/
theorem isWordChar_upperChar (c : Char) : isWordChar (upperChar c) = isWordChar c := by
  unfold upperChar
  by_cases hr : (97 ≤ c.toNat && c.toNat ≤ 122) = true
  · have hr2 : 97 ≤ c.toNat ∧ c.toNat ≤ 122 := by simpa using hr
    have ht : (Char.ofNat (c.toNat - 32)).toNat = c.toNat - 32 :=
      toNat_charOfNat (by omega)
    rw [if_pos hr]
    apply bool_eq_of_iff
    simp only [isWordChar, ht, Bool.or_eq_true, Bool.and_eq_true, decide_eq_true_eq,
      beq_iff_eq]
    omega
  · rw [if_neg hr]

/-- A non-word character never uppercases to the same character as a
word character. -/
theorem upperChar_ne_of_word (p c : Char) (hp : isWordChar p = true)
    (hc : isWordChar c = false) : upperChar c ≠ upperChar p := by
  intro he
  have h1 := isWordChar_upperChar c
  have h2 := isWordChar_upperChar p
  rw [he, h2, hp] at h1
  exact Bool.noConfusion (h1.trans hc)

/-- Negated LessThan is GreaterThanOrEqual, by trichotomy of Compare. -/
theorem not_lessThan_eq_ge (a b : LSN) :
    (!(a.LessThan b)) = a.GreaterThanOrEqual b := by
  unfold LSN.LessThan LSN.GreaterThanOrEqual
  apply bool_eq_of_iff
  simp [Int.not_lt]

/-! ## Claim theorems -/

/-- C1: the claim states that every successful exec-family call runs on a
primary and then invokes the post-write LSN capture.  Evaluating
ExecContext at a successful INSERT on a concrete enabled environment
shows the statement does run on the primary but the facade performs no
UpdateLSNAfterWrite call at all: the capture list is empty, diverging
from the specification and from the documentation of the repository. -/
theorem execContext_success_performs_no_capture :
    (execContextModel sampleFacadeEnv "INSERT INTO t VALUES (1)").success = true ∧
    (execContextModel sampleFacadeEnv "INSERT INTO t VALUES (1)").usedDB
      ∈ sampleFacadeEnv.route.primaries ∧
    DefaultQueryTypeChecker.Check "INSERT INTO t VALUES (1)" = QueryType.Write ∧
    (execContextModel sampleFacadeEnv "INSERT INTO t VALUES (1)").lsnCaptureDBs = [] := by
  refine ⟨rfl, ?_, by decide, rfl⟩
  decide

/-- C3: for a write statement the CausalRouter returns the load-balancer
choice among the primaries, whatever the token carries, as long as the
router is enabled and a primary is configured; with a sound load
balancer that handle is a primary. -/
theorem routeQuery_write_targets_primary (env : RouteEnv)
    (config : CausalConsistencyConfig) (lsnCtx : Option LSNContext)
    (hEn : config.Enabled = true) (hP : env.primaries ≠ [])
    (hRP : env.resolve env.primaries ∈ env.primaries) :
    routeQuery env config lsnCtx QueryType.Write
      = RouteResult.ok (env.resolve env.primaries) ∧
    env.resolve env.primaries ∈ env.primaries := by
  refine ⟨?_, hRP⟩
  unfold routeQuery
  simp only [hEn, Bool.not_true, Bool.false_eq_true, if_false, hP, if_neg hP]
  cases hm : (match lsnCtx with
              | some t => t.ForceMaster
              | none => false) <;> simp

/-- Witness for C3 at a concrete environment, token and configuration. -/
theorem routeQuery_write_targets_primary_witness :
    ({ Enabled := true, Level := CausalConsistencyLevel.ReadYourWrites,
       FallbackToMaster := false } : CausalConsistencyConfig).Enabled = true ∧
    sampleRouteEnv.primaries ≠ [] ∧
    sampleRouteEnv.resolve sampleRouteEnv.primaries ∈ sampleRouteEnv.primaries ∧
    (routeQuery sampleRouteEnv
        { Enabled := true, Level := CausalConsistencyLevel.ReadYourWrites,
          FallbackToMaster := false }
        (some { RequiredLSN := ⟨0, 0x3000060⟩,
                Level := CausalConsistencyLevel.ReadYourWrites,
                ForceMaster := false, HasWriteOperation := true })
        QueryType.Write
      = RouteResult.ok (sampleRouteEnv.resolve sampleRouteEnv.primaries) ∧
     sampleRouteEnv.resolve sampleRouteEnv.primaries ∈ sampleRouteEnv.primaries) :=
  ⟨by decide, by decide, by decide,
   routeQuery_write_targets_primary sampleRouteEnv _ _ (by decide) (by decide) (by decide)⟩

/-- C7: the claim states that a committed transaction with a successful
write performs the post-write capture on the pinned primary.  Evaluating
the transaction path at a successful INSERT followed by a successful
commit shows the write is recorded, yet the capture list of Commit is
empty: BeginTx never installs the query router on the tx value, so
trackLSNAfterWrite finds no router and does nothing.  Rollback performs
no capture either. -/
theorem txCommit_after_write_performs_no_capture :
    (txExecContext (beginTx sampleFacadeEnv) true).writesOccurred = true ∧
    DefaultQueryTypeChecker.Check "INSERT INTO t VALUES (1)" = QueryType.Write ∧
    txCommitCaptures (txExecContext (beginTx sampleFacadeEnv) true) true = [] ∧
    txRollbackCaptures (txExecContext (beginTx sampleFacadeEnv) true) = [] := by
  exact ⟨rfl, by decide, rfl, rfl⟩

/-- C8: SetLSNCookie leaves the response unchanged exactly when the LSN
is the zero LSN; in particular a zero LSN writes no cookie and any
emitted cookie comes from a non-zero LSN. -/
theorem setLSNCookie_unchanged_iff_zero (resp : List HTTPCookie) (lsn : LSN)
    (cookieName : String) (maxAgeSeconds : Int) (secure : Bool) :
    (SetLSNCookie resp lsn cookieName maxAgeSeconds secure = resp
      ↔ lsn.IsZero = true) := by
  unfold SetLSNCookie
  by_cases hz : lsn.IsZero = true
  · simp [hz]
  · simp only [hz, if_false, Bool.false_eq_true, iff_false]
    intro hcontra
    have := congrArg List.length hcontra
    simp at this

/-- C10: on a successful capture, UpdateLSNAfterWrite returns the
captured LSN, and the token observable on the caller context afterwards
is the old token with its RequiredLSN overwritten when one was attached,
and still absent when none was attached (the captured LSN then escapes
only through the return value). -/
theorem updateLSN_token_visibility (config : CausalConsistencyConfig)
    (env : UpdateEnv) (d : Nat) (lsnCtx : Option LSNContext) (l : LSN)
    (hEn : config.Enabled = true) (hW : env.currentWAL d = some l) :
    (updateLSNAfterWrite config env (some d) lsnCtx).ret = LSNCaptureResult.ok l ∧
    (updateLSNAfterWrite config env (some d) lsnCtx).callerCtx
      = lsnCtx.map (fun t => { t with RequiredLSN := l }) := by
  unfold updateLSNAfterWrite
  simp [hEn, hW]

/-- Witness for C10 with a token attached and with none attached, at a
concrete configuration and WAL oracle. -/
theorem updateLSN_token_visibility_witness :
    ({ Enabled := true, Level := CausalConsistencyLevel.ReadYourWrites,
       FallbackToMaster := true } : CausalConsistencyConfig).Enabled = true ∧
    (({ currentWAL := fun _ => some ⟨0, 0x3000060⟩ } : UpdateEnv).currentWAL 0
      = some ⟨0, 0x3000060⟩) ∧
    ((updateLSNAfterWrite
        { Enabled := true, Level := CausalConsistencyLevel.ReadYourWrites,
          FallbackToMaster := true }
        { currentWAL := fun _ => some ⟨0, 0x3000060⟩ } (some 0) none).ret
      = LSNCaptureResult.ok ⟨0, 0x3000060⟩ ∧
     (updateLSNAfterWrite
        { Enabled := true, Level := CausalConsistencyLevel.ReadYourWrites,
          FallbackToMaster := true }
        { currentWAL := fun _ => some ⟨0, 0x3000060⟩ } (some 0) none).callerCtx
      = (none : Option LSNContext).map (fun t => { t with RequiredLSN := ⟨0, 0x3000060⟩ })) :=
  ⟨by decide, by decide,
   updateLSN_token_visibility _ _ 0 none ⟨0, 0x3000060⟩ (by decide) (by decide)⟩

/-- C5 counterexample: the claim states that with a malformed LSN cookie
the middleware attaches no causal token.  On a request whose cookie does
not parse, the middleware of middleware.go nevertheless attaches a
freshly allocated zero LSNContext, so a token is present. -/
theorem middleware_attaches_token_on_malformed_cookie :
    middlewareAttachedCtx { lsnCookie := some "not-an-lsn" } ≠ none := by
  decide

/-- C5 amended: with an absent, empty or malformed LSN cookie the
middleware attaches the zero LSNContext (zero RequiredLSN, master not
forced), and routing with that token is indistinguishable from routing
with no token, so the request proceeds as if there were no causal
requirement. -/
theorem middleware_malformed_cookie_no_requirement (r : HTTPRequest)
    (env : RouteEnv) (config : CausalConsistencyConfig) (qt : QueryType)
    (hNo : (GetLSNFromCookie r).2 = false) :
    middlewareAttachedCtx r = some LSNContext.zero ∧
    routeQuery env config (middlewareAttachedCtx r) qt
      = routeQuery env config none qt := by
  have h1 : middlewareAttachedCtx r = some LSNContext.zero := by
    simp [middlewareAttachedCtx, hNo]
  refine ⟨h1, ?_⟩
  rw [h1]
  unfold routeQuery
  cases hEn : config.Enabled
  · simp
  · simp only [Bool.not_true, Bool.false_eq_true, if_false]
    by_cases hP : env.primaries = []
    · simp [hP]
    · simp only [hP, if_neg hP, LSNContext.zero]
      cases config.Level <;> simp [LSN.IsZero]

/-- Witness for the amended C5 at a concrete malformed-cookie request,
environment, configuration and query kind. -/
theorem middleware_malformed_cookie_no_requirement_witness :
    (GetLSNFromCookie { lsnCookie := some "not-an-lsn" }).2 = false ∧
    (middlewareAttachedCtx { lsnCookie := some "not-an-lsn" } = some LSNContext.zero ∧
     routeQuery sampleRouteEnv
        { Enabled := true, Level := CausalConsistencyLevel.ReadYourWrites,
          FallbackToMaster := true }
        (middlewareAttachedCtx { lsnCookie := some "not-an-lsn" }) QueryType.Read
      = routeQuery sampleRouteEnv
          { Enabled := true, Level := CausalConsistencyLevel.ReadYourWrites,
            FallbackToMaster := true }
          none QueryType.Read) :=
  ⟨by decide,
   middleware_malformed_cookie_no_requirement _ sampleRouteEnv _ QueryType.Read (by decide)⟩

/-- C2: under ReadYourWrites with a token carrying a non-zero required
LSN, master not forced, a read statement, and both a primary and a
replica configured, the router returns the selector-chosen replica
exactly when that replica reports a replay LSN at or above the required
LSN; otherwise, and likewise when the replay-LSN query fails, it falls
back to a primary when FallbackToMaster is set and fails with the
no-replica-caught-up error when it is not. -/
theorem routeQuery_readYourWrites_decision (env : RouteEnv)
    (config : CausalConsistencyConfig) (t : LSNContext) (qt : QueryType)
    (hEn : config.Enabled = true)
    (hLvl : config.Level = CausalConsistencyLevel.ReadYourWrites)
    (hP : env.primaries ≠ []) (hR : env.replicas ≠ [])
    (hFM : t.ForceMaster = false) (hNZ : t.RequiredLSN.IsZero = false)
    (hQT : qt ≠ QueryType.Write) :
    routeQuery env config (some t) qt =
      match env.lastReplayLSN (env.resolve env.replicas) with
      | some replicaLSN =>
        if replicaLSN.GreaterThanOrEqual t.RequiredLSN then
          RouteResult.ok (env.resolve env.replicas)
        else if config.FallbackToMaster then
          RouteResult.ok (env.resolve env.primaries)
        else RouteResult.err RouteError.noReplicaCaughtUp
      | none =>
        if config.FallbackToMaster then RouteResult.ok (env.resolve env.primaries)
        else RouteResult.err RouteError.noReplicaCaughtUp := by
  unfold routeQuery shouldUseReplica
  cases hrl : env.lastReplayLSN (env.resolve env.replicas) with
  | none => simp [hEn, hP, hFM, hQT, hLvl, hNZ, hR, hrl]
  | some replicaLSN =>
    have hge := not_lessThan_eq_ge replicaLSN t.RequiredLSN
    cases hlt : replicaLSN.LessThan t.RequiredLSN with
    | true =>
      rw [hlt] at hge
      simp [hEn, hP, hFM, hQT, hLvl, hNZ, hR, hrl, hlt, ← hge]
    | false =>
      rw [hlt] at hge
      simp [hEn, hP, hFM, hQT, hLvl, hNZ, hR, hrl, hlt, ← hge]

/-- Witness for C2: concrete lagging replica (replay 0/3000040 against
required 0/3000060) with fallback enabled routes to the primary. -/
theorem routeQuery_readYourWrites_decision_witness :
    ({ Enabled := true, Level := CausalConsistencyLevel.ReadYourWrites,
       FallbackToMaster := true } : CausalConsistencyConfig).Enabled = true ∧
    ({ Enabled := true, Level := CausalConsistencyLevel.ReadYourWrites,
       FallbackToMaster := true } : CausalConsistencyConfig).Level
      = CausalConsistencyLevel.ReadYourWrites ∧
    sampleRouteEnv.primaries ≠ [] ∧ sampleRouteEnv.replicas ≠ [] ∧
    ({ RequiredLSN := ⟨0, 0x3000060⟩, Level := CausalConsistencyLevel.ReadYourWrites,
       ForceMaster := false, HasWriteOperation := false } : LSNContext).ForceMaster = false ∧
    ({ RequiredLSN := ⟨0, 0x3000060⟩, Level := CausalConsistencyLevel.ReadYourWrites,
       ForceMaster := false, HasWriteOperation := false } : LSNContext).RequiredLSN.IsZero = false ∧
    QueryType.Read ≠ QueryType.Write ∧
    routeQuery sampleRouteEnv
        { Enabled := true, Level := CausalConsistencyLevel.ReadYourWrites,
          FallbackToMaster := true }
        (some { RequiredLSN := ⟨0, 0x3000060⟩,
                Level := CausalConsistencyLevel.ReadYourWrites,
                ForceMaster := false, HasWriteOperation := false })
        QueryType.Read =
      match sampleRouteEnv.lastReplayLSN (sampleRouteEnv.resolve sampleRouteEnv.replicas) with
      | some replicaLSN =>
        if replicaLSN.GreaterThanOrEqual
            ({ RequiredLSN := ⟨0, 0x3000060⟩,
               Level := CausalConsistencyLevel.ReadYourWrites,
               ForceMaster := false, HasWriteOperation := false } : LSNContext).RequiredLSN then
          RouteResult.ok (sampleRouteEnv.resolve sampleRouteEnv.replicas)
        else if ({ Enabled := true, Level := CausalConsistencyLevel.ReadYourWrites,
                   FallbackToMaster := true } : CausalConsistencyConfig).FallbackToMaster then
          RouteResult.ok (sampleRouteEnv.resolve sampleRouteEnv.primaries)
        else RouteResult.err RouteError.noReplicaCaughtUp
      | none =>
        if ({ Enabled := true, Level := CausalConsistencyLevel.ReadYourWrites,
              FallbackToMaster := true } : CausalConsistencyConfig).FallbackToMaster then
          RouteResult.ok (sampleRouteEnv.resolve sampleRouteEnv.primaries)
        else RouteResult.err RouteError.noReplicaCaughtUp := by
  refine ⟨by decide, by decide, by decide, by decide, by decide, by decide, by decide, ?_⟩
  exact routeQuery_readYourWrites_decision sampleRouteEnv _ _ QueryType.Read
    (by decide) (by decide) (by decide) (by decide) (by decide) (by decide) (by decide)

/-- C9: on a query-family call, a statement classified as a write runs
exactly once on the ReadWrite primary with no retry anywhere; a read
statement whose first execution fails with a connection-level error is
re-run exactly once, on the ReadWrite primary and nowhere else; a read
whose first execution does not hit a connection-level error runs only
once. -/
theorem queryContext_read_conn_error_retry (f : FacadeEnv)
    (lsnCtx : Option LSNContext) (q : String)
    (hRP : DBReadWrite f ∈ f.route.primaries) :
    (DefaultQueryTypeChecker.Check q = QueryType.Write →
       queryContextDBs f lsnCtx q = [DBReadWrite f]) ∧
    (DefaultQueryTypeChecker.Check q ≠ QueryType.Write →
       f.connErr (queryReadTarget f lsnCtx) = true →
       queryContextDBs f lsnCtx q = [queryReadTarget f lsnCtx, DBReadWrite f] ∧
       DBReadWrite f ∈ f.route.primaries) ∧
    (DefaultQueryTypeChecker.Check q ≠ QueryType.Write →
       f.connErr (queryReadTarget f lsnCtx) = false →
       queryContextDBs f lsnCtx q = [queryReadTarget f lsnCtx]) := by
  unfold queryContextDBs
  by_cases hw : DefaultQueryTypeChecker.Check q = QueryType.Write
  · simp [hw]
  · refine ⟨fun hcontra => absurd hcontra hw, fun _ herr => ⟨?_, hRP⟩, fun _ hok => ?_⟩
    · simp [hw, herr]
    · simp [hw, hok]

/-- Witness for C9: a concrete SELECT failing with a connection error on
the selected replica is retried once on the primary. -/
theorem queryContext_read_conn_error_retry_witness :
    DBReadWrite sampleFacadeEnvConnErr ∈ sampleFacadeEnvConnErr.route.primaries ∧
    ((DefaultQueryTypeChecker.Check "SELECT 1" = QueryType.Write →
        queryContextDBs sampleFacadeEnvConnErr none "SELECT 1"
          = [DBReadWrite sampleFacadeEnvConnErr]) ∧
     (DefaultQueryTypeChecker.Check "SELECT 1" ≠ QueryType.Write →
        sampleFacadeEnvConnErr.connErr (queryReadTarget sampleFacadeEnvConnErr none) = true →
        queryContextDBs sampleFacadeEnvConnErr none "SELECT 1"
          = [queryReadTarget sampleFacadeEnvConnErr none, DBReadWrite sampleFacadeEnvConnErr] ∧
        DBReadWrite sampleFacadeEnvConnErr ∈ sampleFacadeEnvConnErr.route.primaries) ∧
     (DefaultQueryTypeChecker.Check "SELECT 1" ≠ QueryType.Write →
        sampleFacadeEnvConnErr.connErr (queryReadTarget sampleFacadeEnvConnErr none) = false →
        queryContextDBs sampleFacadeEnvConnErr none "SELECT 1"
          = [queryReadTarget sampleFacadeEnvConnErr none])) :=
  ⟨by decide, queryContext_read_conn_error_retry sampleFacadeEnvConnErr none "SELECT 1" (by decide)⟩

/-- On a character that is neither the long s nor the Kelvin sign, the
fold-orbit test collapses to ASCII case-insensitive equality. -/
theorem foldMatchCI_of_not_orbit (c p : Char)
    (h1 : c ≠ '\u017F') (h2 : c ≠ '\u212A') :
    foldMatchCI c p = (upperChar c == upperChar p) := by
  unfold foldMatchCI
  rw [beq_eq_false_iff_ne.mpr h1, beq_eq_false_iff_ne.mpr h2]
  simp

/-- Every member of a dropWhile result is a member of the original list. -/
theorem mem_of_mem_dropWhile {p : Char → Bool} {l : List Char} {c : Char}
    (h : c ∈ l.dropWhile p) : c ∈ l := by
  induction l with
  | nil => simp at h
  | cons a t ih =>
    rw [List.dropWhile_cons] at h
    by_cases hp : p a = true
    · rw [if_pos hp] at h
      exact List.mem_cons_of_mem _ (ih h)
    · rw [if_neg hp] at h
      exact h

/-- A case-folded anchored word match succeeds exactly when the maximal
word-character token at that position uppercases to the same letters as
the pattern, provided the input contains no character of the two fold
orbits that leave ASCII (long s, Kelvin sign). -/
theorem ciPrefix_iff_token (v : List Char) :
    (∀ a ∈ v, isWordChar a = true) →
    ∀ rest : List Char, (∀ c ∈ rest, c ≠ '\u017F' ∧ c ≠ '\u212A') →
      (ciPrefixWordBoundary v rest = true ↔
        (rest.takeWhile isWordChar).map upperChar = v.map upperChar) := by
  induction v with
  | nil =>
    intro _ rest _
    cases rest with
    | nil => simp [ciPrefixWordBoundary]
    | cons c cs =>
      by_cases hw : isWordChar c = true
      · simp [ciPrefixWordBoundary, hw, List.takeWhile_cons]
      · simp only [Bool.not_eq_true] at hw
        simp [ciPrefixWordBoundary, hw, List.takeWhile_cons]
  | cons p ps ih =>
    intro hv rest horb
    have hp : isWordChar p = true := hv p (List.mem_cons_self _ _)
    have hps : ∀ a ∈ ps, isWordChar a = true := fun a ha => hv a (List.mem_cons_of_mem _ ha)
    cases rest with
    | nil => simp [ciPrefixWordBoundary]
    | cons c cs =>
      have hc := horb c (List.mem_cons_self _ _)
      have hcs : ∀ d ∈ cs, d ≠ '\u017F' ∧ d ≠ '\u212A' :=
        fun d hd => horb d (List.mem_cons_of_mem _ hd)
      have hfold : foldMatchCI c p = (upperChar c == upperChar p) :=
        foldMatchCI_of_not_orbit c p hc.1 hc.2
      by_cases hw : isWordChar c = true
      · by_cases he : upperChar c = upperChar p
        · simp [ciPrefixWordBoundary, hfold, hw, he, List.takeWhile_cons, ih hps cs hcs]
        · simp [ciPrefixWordBoundary, hfold, hw, he, List.takeWhile_cons]
      · simp only [Bool.not_eq_true] at hw
        have hne : upperChar c ≠ upperChar p := upperChar_ne_of_word p c hp hw
        simp [ciPrefixWordBoundary, hfold, hw, hne, List.takeWhile_cons]

/-- The anchored verb alternation of the classifier regex coincides with
the first-token contract of the specification on every statement free of
the two non-ASCII fold-orbit characters. -/
theorem verbAlternation_eq_firstToken (q : List Char)
    (horb : ∀ c ∈ q, c ≠ '\u017F' ∧ c ≠ '\u212A') :
    (writeVerbs.any fun v => ciPrefixWordBoundary v (q.dropWhile isSpaceRE2))
      = (writeVerbs.any fun v => (firstWordToken q).map upperChar == v) := by
  have horb2 : ∀ c ∈ q.dropWhile isSpaceRE2, c ≠ '\u017F' ∧ c ≠ '\u212A' :=
    fun c hc => horb c (mem_of_mem_dropWhile hc)
  have hverb : ∀ v ∈ writeVerbs,
      (ciPrefixWordBoundary v (q.dropWhile isSpaceRE2))
        = (((q.dropWhile isSpaceRE2).takeWhile isWordChar).map upperChar == v) := by
    intro v hv
    have hword : ∀ a ∈ v, isWordChar a = true := by
      simp only [writeVerbs] at hv
      fin_cases hv <;> decide
    have hfix : v.map upperChar = v := by
      simp only [writeVerbs] at hv
      fin_cases hv <;> decide
    apply bool_eq_of_iff
    rw [beq_iff_eq, ciPrefix_iff_token v hword (q.dropWhile isSpaceRE2) horb2, hfix]
  apply bool_eq_of_iff
  simp only [List.any_eq_true]
  constructor
  · rintro ⟨v, hv, hmatch⟩
    exact ⟨v, hv, by rw [firstWordToken, ← hverb v hv]; exact hmatch⟩
  · rintro ⟨v, hv, hmatch⟩
    exact ⟨v, hv, by rw [hverb v hv, ← firstWordToken]; exact hmatch⟩

/-- C4 counterexample: the statement whose third character is U+017F
(latin small letter long s) is classified Write by the compiled regex,
because RE2 case folding identifies U+017F with s and the INSERT
alternative matches; yet its first non-whitespace word token is the two
letters in, which is no mutation verb, and RETURNING does not occur, so
the contract as the claim words it yields Unknown. -/
theorem check_fold_orbit_cex :
    DefaultQueryTypeChecker.Check "in\u017Fert into t" = QueryType.Write ∧
    checkSpec "in\u017Fert into t" = QueryType.Unknown ∧
    DefaultQueryTypeChecker.Check "in\u017Fert into t"
      ≠ checkSpec "in\u017Fert into t" :=
  ⟨by decide, by decide, by decide⟩

/-- C4 amended: for every SQL statement string containing neither U+017F
(long s) nor U+212A (the Kelvin sign) — the only two characters whose
RE2 simple-fold orbit reaches an ASCII letter — the classifier returns
Write exactly as the specification contract words it: the first
non-whitespace token, case-insensitively, is one of INSERT, UPDATE,
DELETE, MERGE, TRUNCATE, REPLACE, or the statement contains the bare
word RETURNING on a word boundary; all other statements yield Unknown. -/
theorem check_agrees_with_spec_contract (q : String)
    (horb : ∀ c ∈ q.data, c ≠ '\u017F' ∧ c ≠ '\u212A') :
    DefaultQueryTypeChecker.Check q = checkSpec q := by
  unfold DefaultQueryTypeChecker.Check checkSpec checkChars checkSpecChars writeRegexMatch
  rw [verbAlternation_eq_firstToken q.data horb]

/-- Witness for the amended C4 at a concrete mixed-case statement with
leading whitespace. -/
theorem check_agrees_with_spec_contract_witness :
    (∀ c ∈ ("  insert into t values (1)" : String).data,
      c ≠ '\u017F' ∧ c ≠ '\u212A') ∧
    DefaultQueryTypeChecker.Check "  insert into t values (1)"
      = checkSpec "  insert into t values (1)" :=
  ⟨by decide, check_agrees_with_spec_contract "  insert into t values (1)" (by decide)⟩

/-- Splitting a list without a solidus yields the single segment. -/
theorem splitSlash_no_slash (l : List Char) (h : '/' ∉ l) : splitSlash l = [l] := by
  induction l with
  | nil => rfl
  | cons c rest ih =>
    have hc : c ≠ '/' := fun hc => h (hc ▸ List.mem_cons_self _ _)
    have hrest : '/' ∉ rest := fun hr => h (List.mem_cons_of_mem _ hr)
    unfold splitSlash
    rw [if_neg hc, ih hrest]

/-- Splitting two slash-free segments joined by one solidus yields
exactly those two segments. -/
theorem splitSlash_append (u v : List Char) (hu : '/' ∉ u) (hv : '/' ∉ v) :
    splitSlash (u ++ '/' :: v) = [u, v] := by
  induction u with
  | nil =>
    simp only [List.nil_append]
    unfold splitSlash
    rw [if_pos rfl, splitSlash_no_slash v hv]
  | cons c rest ih =>
    have hc : c ≠ '/' := fun hc => hu (hc ▸ List.mem_cons_self _ _)
    have hrest : '/' ∉ rest := fun hr => hu (List.mem_cons_of_mem _ hr)
    simp only [List.cons_append]
    unfold splitSlash
    rw [if_neg hc, ih hrest]

/-- Hexadecimal digits, their values, their rendering and the solidus:
the facts needed per digit, by enumeration of the 22 digit characters. -/
theorem hexDigit_facts (c : Char) (h : isHexDigit c = true) :
    hexVal c < 16 ∧ hexDigitChar (hexVal c) = upperChar c ∧
      (c ≠ '0' → 1 ≤ hexVal c) ∧ c ≠ '/' := by
  have hmem : c ∈ hexChars := by
    simpa [isHexDigit] using h
  simp only [hexChars] at hmem
  fin_cases hmem <;> refine ⟨by decide, by decide, fun h0 => ?_, by decide⟩ <;> simp_all <;> decide

/-- Lower bound of the hexadecimal fold: the accumulator scales by the
base at every step. -/
theorem foldl_hex_lower (t : List Char) :
    ∀ a : Nat, a * 16 ^ t.length ≤ t.foldl (fun x c => 16 * x + hexVal c) a := by
  induction t with
  | nil => intro a; simp
  | cons c t ih =>
    intro a
    have step := ih (16 * a + hexVal c)
    calc a * 16 ^ (c :: t).length
        = 16 * a * 16 ^ t.length := by
          simp [List.length_cons, Nat.pow_succ]
          ring
      _ ≤ (16 * a + hexVal c) * 16 ^ t.length :=
          Nat.mul_le_mul_right _ (Nat.le_add_right _ _)
      _ ≤ (c :: t).foldl (fun x c => 16 * x + hexVal c) a := by
          simpa using step

/-- Upper bound of the hexadecimal fold over digit characters. -/
theorem foldl_hex_upper (t : List Char) :
    ∀ a : Nat, (∀ c ∈ t, isHexDigit c = true) →
      t.foldl (fun x c => 16 * x + hexVal c) a < (a + 1) * 16 ^ t.length := by
  induction t with
  | nil => intro a _; simp
  | cons c t ih =>
    intro a hall
    have hc : hexVal c < 16 :=
      (hexDigit_facts c (hall c (List.mem_cons_self _ _))).1
    have ht : ∀ d ∈ t, isHexDigit d = true := fun d hd => hall d (List.mem_cons_of_mem _ hd)
    have step := ih (16 * a + hexVal c) ht
    calc (c :: t).foldl (fun x c => 16 * x + hexVal c) a
        = t.foldl (fun x c => 16 * x + hexVal c) (16 * a + hexVal c) := by simp
      _ < (16 * a + hexVal c + 1) * 16 ^ t.length := step
      _ ≤ (16 * (a + 1)) * 16 ^ t.length := by
          apply Nat.mul_le_mul_right
          omega
      _ = (a + 1) * 16 ^ (c :: t).length := by
          simp [List.length_cons, Nat.pow_succ]
          ring

/-- A run of at most eight hexadecimal digits decodes below 2^32. -/
theorem fromHex_lt_of_len_le (l : List Char) (hall : ∀ c ∈ l, isHexDigit c = true)
    (hlen : l.length ≤ 8) : fromHex l < 4294967296 := by
  have h1 : fromHex l < 1 * 16 ^ l.length := foldl_hex_upper l 0 hall
  have h2 : (16 : Nat) ^ l.length ≤ 16 ^ 8 :=
    Nat.pow_le_pow_right (by omega) hlen
  calc fromHex l < 1 * 16 ^ l.length := h1
    _ = 16 ^ l.length := by ring
    _ ≤ 16 ^ 8 := h2
    _ ≤ 4294967296 := by norm_num

/-- Appending one digit multiplies the decoded value by the base and
adds the digit value. -/
theorem fromHex_append_digit (l : List Char) (c : Char) :
    fromHex (l ++ [c]) = 16 * fromHex l + hexVal c := by
  simp [fromHex, List.foldl_append]

/-- A segment with a non-zero head digit decodes to at least the place
value of that head. -/
theorem fromHex_head_pos (h : Char) (t : List Char)
    (hh : isHexDigit h = true) (h0 : h ≠ '0') :
    16 ^ t.length ≤ fromHex (h :: t) := by
  have h1 : 1 ≤ hexVal h := (hexDigit_facts h hh).2.2.1 h0
  have h2 := foldl_hex_lower t (hexVal h)
  calc (16 : Nat) ^ t.length
      = 1 * 16 ^ t.length := by ring
    _ ≤ hexVal h * 16 ^ t.length := Nat.mul_le_mul_right _ h1
    _ ≤ t.foldl (fun x c => 16 * x + hexVal c) (hexVal h) := h2
    _ = fromHex (h :: t) := by simp [fromHex]

/-- Enough fuel is always available: any canonical segment is no longer
than its decoded value plus one. -/
theorem length_le_fromHex_succ (l : List Char) (hne : l ≠ [])
    (hall : ∀ c ∈ l, isHexDigit c = true) (hnl : noLeadZero l) :
    l.length ≤ fromHex l + 1 := by
  rcases hnl with h0 | hhead
  · subst h0; decide
  · cases l with
    | nil => cases hne rfl
    | cons h t =>
      have hh : h ≠ '0' := by
        intro hh0
        exact hhead (by simp [hh0])
      have hpow : 16 ^ t.length ≤ fromHex (h :: t) :=
        fromHex_head_pos h t (hall h (List.mem_cons_self _ _)) hh
      have hlen : t.length < 16 ^ t.length := Nat.lt_pow_self (by omega) _
      simp only [List.length_cons]
      omega

/-- Core round-trip: rendering the decoded value of a canonical segment
reproduces the segment, uppercased, for any sufficient fuel. -/
theorem hexRepAux_fromHex (l : List Char) (hne : l ≠ [])
    (hall : ∀ c ∈ l, isHexDigit c = true) (hnl : noLeadZero l) :
    ∀ fuel : Nat, l.length ≤ fuel →
      hexRepAux fuel (fromHex l) = l.map upperChar := by
  induction l using List.reverseRecOn with
  | nil => cases hne rfl
  | append_singleton l c ih =>
    intro fuel hfuel
    have hc : isHexDigit c = true := hall c (by simp)
    have hcl : ∀ d ∈ l, isHexDigit d = true := fun d hd => hall d (by simp [hd])
    cases l with
    | nil =>
      have hval : fromHex ([] ++ [c]) = hexVal c := by simp [fromHex]
      cases fuel with
      | zero => simp at hfuel
      | succ f =>
        rw [hval]
        unfold hexRepAux
        rw [if_pos (hexDigit_facts c hc).1]
        simp [(hexDigit_facts c hc).2.1]
    | cons h t =>
      have hh : h ≠ '0' := by
        rcases hnl with h0 | hhead
        · exact absurd (congrArg List.length h0) (by simp)
        · intro hh0
          exact hhead (by simp [hh0])
      have hnl2 : noLeadZero (h :: t) := Or.inr (by simp [hh])
      have hm : 16 ^ t.length ≤ fromHex (h :: t) :=
        fromHex_head_pos h t (hcl h (List.mem_cons_self _ _)) hh
      have hm1 : 1 ≤ fromHex (h :: t) :=
        le_trans (Nat.one_le_pow _ _ (by omega)) hm
      have hval : fromHex ((h :: t) ++ [c]) = 16 * fromHex (h :: t) + hexVal c :=
        fromHex_append_digit (h :: t) c
      cases fuel with
      | zero => simp at hfuel
      | succ f =>
        have hf : (h :: t).length ≤ f := by
          simpa using hfuel
        have hcv : hexVal c < 16 := (hexDigit_facts c hc).1
        rw [hval]
        unfold hexRepAux
        rw [if_neg (by omega)]
        have hdiv : (16 * fromHex (h :: t) + hexVal c) / 16 = fromHex (h :: t) := by
          rw [Nat.mul_add_div (by omega)]
          simp [Nat.div_eq_of_lt hcv]
        have hmod : (16 * fromHex (h :: t) + hexVal c) % 16 = hexVal c := by
          rw [Nat.mul_add_mod]
          exact Nat.mod_eq_of_lt hcv
        rw [hdiv, hmod, ih (by simp) hcl hnl2 f hf, (hexDigit_facts c hc).2.1]
        simp

/-- Rendering the decoded value of a canonical segment reproduces the
segment, uppercased. -/
theorem hexRep_fromHex (l : List Char) (hne : l ≠ [])
    (hall : ∀ c ∈ l, isHexDigit c = true) (hnl : noLeadZero l) :
    hexRep (fromHex l) = l.map upperChar :=
  hexRepAux_fromHex l hne hall hnl (fromHex l + 1)
    (length_le_fromHex_succ l hne hall hnl)

/-- C6 counterexample: the claim admits leading zeros in a valid LSN
string, but parsing and re-serializing 01/0 yields 1/0, not the
uppercased input 01/0: the %X rendering strips leading zeros. -/
theorem parse_toString_leading_zero_cex :
    ParseLSN "01/0" = some ⟨1, 0⟩ ∧
    (ParseLSN "01/0").map LSN.toString = some "1/0" ∧
    upperStr "01/0" = "01/0" ∧
    (ParseLSN "01/0").map LSN.toString ≠ some (upperStr "01/0") := by
  refine ⟨by decide, by decide, by decide, by decide⟩

/-- C6 amended: for every valid LSN string whose two segments of one to
eight hexadecimal digits carry no leading zero (each segment is 0 itself
or starts with a non-zero digit), parsing and serializing returns the
string with its case normalized to uppercase. -/
theorem parse_toString_roundtrip (u v : List Char)
    (hu0 : u ≠ []) (hu1 : ∀ c ∈ u, isHexDigit c = true)
    (hu2 : u.length ≤ 8) (hu3 : noLeadZero u)
    (hv0 : v ≠ []) (hv1 : ∀ c ∈ v, isHexDigit c = true)
    (hv2 : v.length ≤ 8) (hv3 : noLeadZero v) :
    (ParseLSN (String.mk (u ++ '/' :: v))).map LSN.toString
      = some (upperStr (String.mk (u ++ '/' :: v))) := by
  have husl : '/' ∉ u := fun hm => (hexDigit_facts '/' (hu1 _ hm)).2.2.2 rfl
  have hvsl : '/' ∉ v := fun hm => (hexDigit_facts '/' (hv1 _ hm)).2.2.2 rfl
  have hne : u ++ '/' :: v ≠ [] := by
    cases u <;> simp
  have hsplit : splitSlash (u ++ '/' :: v) = [u, v] := splitSlash_append u v husl hvsl
  have hpu : parseHex32 u = some (fromHex u) := by
    unfold parseHex32
    rw [if_neg hu0, if_pos (by simpa [List.all_eq_true] using hu1),
      if_pos (fromHex_lt_of_len_le u hu1 hu2)]
  have hpv : parseHex32 v = some (fromHex v) := by
    unfold parseHex32
    rw [if_neg hv0, if_pos (by simpa [List.all_eq_true] using hv1),
      if_pos (fromHex_lt_of_len_le v hv1 hv2)]
  have hparse : ParseLSN (String.mk (u ++ '/' :: v)) = some ⟨fromHex u, fromHex v⟩ := by
    unfold ParseLSN ParseLSNChars
    rw [if_neg hne]
    simp only [String.data]
    rw [hsplit]
    simp [hpu, hpv]
  rw [hparse]
  have hslash : upperChar '/' = '/' := by decide
  show some (LSN.toString ⟨fromHex u, fromHex v⟩)
      = some (upperStr (String.mk (u ++ '/' :: v)))
  refine congrArg some ?_
  unfold LSN.toString upperStr
  refine congrArg String.mk ?_
  show hexRep (fromHex u) ++ '/' :: hexRep (fromHex v)
      = List.map upperChar (u ++ '/' :: v)
  rw [hexRep_fromHex u hu0 hu1 hu3, hexRep_fromHex v hv0 hv1 hv3]
  simp [hslash]

/-- Witness for the amended C6 at the concrete LSN string 0/3000060. -/
theorem parse_toString_roundtrip_witness :
    ((['0'] : List Char) ≠ [] ∧ (∀ c ∈ (['0'] : List Char), isHexDigit c = true) ∧
      (['0'] : List Char).length ≤ 8 ∧ noLeadZero ['0'] ∧
      (['3', '0', '0', '0', '0', '6', '0'] : List Char) ≠ [] ∧
      (∀ c ∈ (['3', '0', '0', '0', '0', '6', '0'] : List Char), isHexDigit c = true) ∧
      (['3', '0', '0', '0', '0', '6', '0'] : List Char).length ≤ 8 ∧
      noLeadZero ['3', '0', '0', '0', '0', '6', '0']) ∧
    (ParseLSN (String.mk (['0'] ++ '/' :: ['3', '0', '0', '0', '0', '6', '0']))).map LSN.toString
      = some (upperStr (String.mk (['0'] ++ '/' :: ['3', '0', '0', '0', '0', '6', '0']))) :=
  ⟨⟨by decide, by decide, by decide, by decide, by decide, by decide, by decide, by decide⟩,
   parse_toString_roundtrip ['0'] ['3', '0', '0', '0', '0', '6', '0']
     (by decide) (by decide) (by decide) (by decide)
     (by decide) (by decide) (by decide) (by decide)⟩
